import Mathlib

/-!
# Verification of the Tokyo-UHIs hotspot detection and validation pipeline

Shallow embedding of the core algorithm of `src/backend/pipeline.py` and
`src/backend/stats.py`.

Modelling conventions:

* An Earth Engine raster (`ee.Image`) is a scalar field whose pixels may be
  masked ("carry no value").  We model it as `Raster α := Nat → Option α`,
  with `none` for a masked pixel.  Pixel identity is abstract (`Nat`).
* Numeric values are rationals (`ℚ`); floating point is modelled exactly,
  with the square root used inside `np.std` abstracted as a function
  parameter (`StatsLib.sqrtQ`), since no claim depends on its value.
* Earth Engine server-side reductions (`reduceRegion` percentile / mean),
  the random point sampling (`Image.sample`) and the geometric
  rasterize-and-buffer step (`reduceToImage` + `focal_max` over a 500 m
  circular kernel) are external collaborators: they are supplied by a
  `Provider` structure, exactly as the spec's §6 collaborator contract
  describes them.
* The spatial statistics libraries `esda.getisord.G_Local` and
  `esda.moran.Moran_Local` (together with the `libpysal` 8-nearest-neighbour
  row-standardised weights built from the coordinates) are third-party code,
  modelled as abstract functions in a `StatsLib` structure; the repository's
  own adapter logic around them (`run_spatial_stats`) is embedded in full.
* Python code that can raise becomes `Except String`; Earth Engine's
  behaviour of failing at evaluation time when a required number is `null`
  (the percentile of an empty region) or when an empty `FeatureCollection`
  is rasterized is modelled as the corresponding error / `none` result,
  following the spec's §4.1 and §4.5 failure policies for these external
  calls.
* File-system writes performed by `UHIPipeline.run` (`_save_json`,
  `_thumb`) are recorded as an explicit ordered list of written file names
  in the run output, so that the side-effect behaviour is visible to the
  theorems.  The rendered image contents themselves (visualisation
  parameters, thumbnail downloads) are not modelled.
-/

namespace UHI

/-- A georeferenced scalar field with maskable pixels: `none` at a pixel
models an Earth Engine masked pixel ("carries no value"). -/
def Raster (α : Type) : Type := Nat → Option α

namespace Raster

/-- `img.gt(t)`: true where the value exceeds `t`; masked stays masked. -/
def gtQ (img : Raster ℚ) (t : ℚ) : Raster Bool :=
  fun p => (img p).map (fun v => decide (t < v))

/-- `img.lt(t)`: true where the value is below `t`; masked stays masked. -/
def ltQ (img : Raster ℚ) (t : ℚ) : Raster Bool :=
  fun p => (img p).map (fun v => decide (v < t))

/-- `img.eq(t)`: true where the value equals `t`; masked stays masked. -/
def eqQ (img : Raster ℚ) (t : ℚ) : Raster Bool :=
  fun p => (img p).map (fun v => decide (v = t))

/-- `img.lte(t)`: true where the value is at most `t`; masked stays masked. -/
def lteQ (img : Raster ℚ) (t : ℚ) : Raster Bool :=
  fun p => (img p).map (fun v => decide (v ≤ t))

/-- `img.gte(t)` on an integer-count raster. -/
def gteN (img : Raster Nat) (t : Nat) : Raster Bool :=
  fun p => (img p).map (fun v => decide (t ≤ v))

/-- `a.And(b)`: Earth Engine binary `And`; the output is masked wherever
either input is masked. -/
def and (a b : Raster Bool) : Raster Bool :=
  fun p =>
    match a p, b p with
    | some x, some y => some (x && y)
    | _, _ => none

/-- `img.selfMask()`: keeps only pixels whose value is non-zero (true);
zero-valued pixels become masked, masked pixels stay masked. -/
def selfMask (a : Raster Bool) : Raster Bool :=
  fun p =>
    match a p with
    | some true => some true
    | _ => none

end Raster

/-- `UHIPipeline._boolean_count` (pipeline.py lines 100-103): stacks the
condition images into bands, maps each band to `value > 0` and reduces with
`ee.Reducer.sum`.  Per Earth Engine semantics, masked bands are skipped by
the band reducer, and the output is masked only when every band is masked. -/
def boolean_count (conds : List (Raster Bool)) : Raster Nat :=
  fun p =>
    let vals := (conds.map (fun c => c p)).filterMap id
    if vals.isEmpty then none else some (vals.count true)

/-- The seven per-AOI percentile thresholds written to `thresholds.json`
(pipeline.py lines 135-141). -/
structure Thresholds where
  lst80 : ℚ
  ndvi20 : ℚ
  ntl80 : ℚ
  albedo20 : ℚ
  imperv80 : ℚ
  bld80 : ℚ
  pop80 : ℚ
deriving DecidableEq

/-- The ten named raster layers loaded in pipeline.py lines 118-127 (the
loader datasets of providers.py are external data acquisition and are not
modelled beyond the layer itself). -/
structure Layers where
  lst : Raster ℚ
  ndvi : Raster ℚ
  lulc : Raster ℚ
  ntl : Raster ℚ
  albedo : Raster ℚ
  impervious : Raster ℚ
  building_density : Raster ℚ
  population : Raster ℚ
  water_distance : Raster ℚ
  elevation : Raster ℚ

/-- One record of the sampled `FeatureCollection` (pipeline.py lines
164-181): the `count_true` property is absent/`None` when the sampled pixel
was masked, and `lon`/`lat` are set from the point geometry.  The auxiliary
`lst`, `ndvi`, `ntl` band values attached at sampling time are never read
by the pipeline afterwards and are omitted. -/
structure SampleRec where
  count_true : Option ℚ
  lon : ℚ
  lat : ℚ
deriving DecidableEq

/-- External collaborator interface (spec §6): the Earth Engine server-side
operations the pipeline calls, fixed for one (AOI, year) run.
`percentile img pct scale` models
`img.reduceRegion(ee.Reducer.percentile([pct]), aoi, scale)`, returning
`none` when the AOI has too few valid pixels for the reduction (the
dictionary value is `null`).  `meanElev` models the mean-elevation
reduction of pipeline.py line 145.  `sample` is the sampled feature list
(seed 42, 1500 points, scale 300).  `influence pts` models
`reduceToImage` over the significant points followed by
`focal_max(ee.Kernel.circle(500, meters))`: the influence field of the
doubly-significant points. -/
structure Provider where
  layers : Layers
  percentile : Raster ℚ → ℚ → Nat → Option ℚ
  meanElev : Option ℚ
  sample : List SampleRec
  influence : List (ℚ × ℚ) → Raster ℚ

/-- Output arrays of `esda.getisord.G_Local(x, w, star=True)` used by
`run_spatial_stats`: per-point z-scores `Zs` and normal p-values `p_norm`. -/
structure GiOut where
  Zs : List ℚ
  p_norm : List ℚ
deriving DecidableEq

/-- Output arrays of `esda.moran.Moran_Local(x, w)` used by
`run_spatial_stats`: local statistics `Is`, simulated p-values `p_sim` and
cluster quadrant labels `q` (library convention: quadrant 1 = high value
surrounded by high values, the HH cluster). -/
structure MoranOut where
  Is : List ℚ
  p_sim : List ℚ
  q : List ℤ
deriving DecidableEq

/-- The third-party spatial statistics libraries, abstracted: `g_local` and
`moran_local` receive the standardized values and the stacked coordinates
(the `KNN.from_array(coords, k=8)` row-standardized weights construction is
absorbed into them), and `sqrtQ` abstracts the square root inside
`np.std`. -/
structure StatsLib where
  sqrtQ : ℚ → ℚ
  g_local : List ℚ → List (ℚ × ℚ) → GiOut
  moran_local : List ℚ → List (ℚ × ℚ) → MoranOut

/-- The `'gi'` entry of the dictionary returned by `run_spatial_stats`. -/
structure GiRes where
  z_scores : List ℚ
  p_values : List ℚ
  hotspot_95_mask : List ℤ
deriving DecidableEq

/-- The `'moran'` entry of the dictionary returned by `run_spatial_stats`. -/
structure MoranRes where
  Is : List ℚ
  p_values : List ℚ
  significant_95_mask : List ℤ
  q : List ℤ
deriving DecidableEq

/-- Result of `run_spatial_stats`: either the tagged insufficient-samples
dictionary `{"error": ...}` or the full statistics dictionary. -/
inductive StatsResult where
  | error (msg : String)
  | ok (n : Nat) (gi : GiRes) (moran : MoranRes)
deriving DecidableEq

/-- The numpy boolean-mask filtering of stats.py lines 11-14: drop entries
whose value is NaN (modelled as `none`), applying the same mask to the
parallel `lons` and `lats` arrays.  Faithful to numpy for parallel arrays
of equal length (numpy raises on length mismatch; the pipeline always
passes equal lengths). -/
def applyNanMask : List (Option ℚ) → List ℚ → List ℚ → List (ℚ × ℚ × ℚ)
  | some v :: vs, lo :: los, la :: las => (v, lo, la) :: applyNanMask vs los las
  | none :: vs, _ :: los, _ :: las => applyNanMask vs los las
  | _, _, _ => []

/-- `run_spatial_stats` (stats.py lines 9-46): filter NaNs, return the
tagged insufficient-samples result below 50 valid values, otherwise
standardize (z-score with `1e-9` stability epsilon), run Gi* and Local
Moran through the library, and assemble the result arrays; the 95%
hotspot mask is `(Zs > 1.96) & (p_norm < 0.05)` elementwise and the Moran
significance mask is `p_sim < 0.05`.  The float constants are written as
exact rationals: `1.96 = mkRat 49 25`, `0.05 = mkRat 1 20`,
`1e-9 = mkRat 1 1000000000`.  A total function: it never raises. -/
def run_spatial_stats (lib : StatsLib) (values : List (Option ℚ))
    (lons lats : List ℚ) : StatsResult :=
  let kept := applyNanMask values lons lats
  let vals := kept.map (fun t => t.1)
  if vals.length < 50 then
    .error "Insufficient samples for spatial statistics"
  else
    let coords := kept.map (fun t => (t.2.1, t.2.2))
    let m := vals.sum / (vals.length : ℚ)
    let sd := lib.sqrtQ ((vals.map (fun v => (v - m) ^ 2)).sum / (vals.length : ℚ))
    let x := vals.map (fun v => (v - m) / (sd + mkRat 1 1000000000))
    let gi := lib.g_local x coords
    let mi := lib.moran_local x coords
    .ok vals.length
      { z_scores := gi.Zs
        p_values := gi.p_norm
        hotspot_95_mask :=
          List.zipWith (fun z p => if mkRat 49 25 < z ∧ p < mkRat 1 20 then (1 : ℤ) else 0)
            gi.Zs gi.p_norm }
      { Is := mi.Is
        p_values := mi.p_sim
        significant_95_mask := mi.p_sim.map (fun p => if p < mkRat 1 20 then (1 : ℤ) else 0)
        q := mi.q }

/-- The seven percentile-threshold reductions of pipeline.py lines 135-141,
in source order, each with its variable-specific percentile and scale; the
`do` chain models the fact that a `null` percentile (too few valid AOI
pixels) makes the downstream Earth Engine evaluation fail, so no threshold
value is ever substituted. -/
def computeThresholds (pr : Provider) : Option Thresholds := do
  let lst80 ← pr.percentile pr.layers.lst 80 1000
  let ndvi20 ← pr.percentile pr.layers.ndvi 20 300
  let ntl80 ← pr.percentile pr.layers.ntl 80 500
  let albedo20 ← pr.percentile pr.layers.albedo 20 500
  let imperv80 ← pr.percentile pr.layers.impervious 80 100
  let bld80 ← pr.percentile pr.layers.building_density 80 300
  let pop80 ← pr.percentile pr.layers.population 80 300
  pure ⟨lst80, ndvi20, ntl80, albedo20, imperv80, bld80, pop80⟩

/-- The eight boolean exceedance condition layers of pipeline.py lines
149-158, in source order: greater-than for the high-indicative variables,
less-than for the low-indicative ones, and the fixed (non-percentile)
water-distance condition `water_distance > 500` metres. -/
def mk_conds (L : Layers) (t : Thresholds) : List (Raster Bool) :=
  [Raster.gtQ L.lst t.lst80,
   Raster.ltQ L.ndvi t.ndvi20,
   Raster.ltQ L.albedo t.albedo20,
   Raster.gtQ L.impervious t.imperv80,
   Raster.gtQ L.building_density t.bld80,
   Raster.gtQ L.population t.pop80,
   Raster.gtQ L.ntl t.ntl80,
   Raster.gtQ L.water_distance 500]

/-- The preliminary hotspot mask of pipeline.py line 161:
`count_true.gte(6).And(urban_mask).And(elev_ok).selfMask()`. -/
def mk_prelim_hot (count_true : Raster Nat) (urban_mask elev_ok : Raster Bool) :
    Raster Bool :=
  Raster.selfMask (Raster.and (Raster.and (Raster.gteN count_true 6) urban_mask) elev_ok)

/-- The validated hotspot mask of pipeline.py line 254:
`prelim_hot.And(sig_density.gt(0)).selfMask()`. -/
def mk_validated (prelim_hot : Raster Bool) (sig_density : Raster ℚ) : Raster Bool :=
  Raster.selfMask (Raster.and prelim_hot (Raster.gtQ sig_density 0))

/-- The client-side collection loop of pipeline.py lines 173-181: walk the
sampled features in order and keep `count_true`, `lon`, `lat` of every
feature whose `count_true` property is present and non-null, building the
three parallel arrays handed to `run_spatial_stats`.  Records with a
missing vote count are discarded, never an error. -/
def collectSamples : List SampleRec → List ℚ × List ℚ × List ℚ
  | [] => ([], [], [])
  | f :: rest =>
    let acc := collectSamples rest
    match f.count_true with
    | some v => (v :: acc.1, f.lon :: acc.2.1, f.lat :: acc.2.2)
    | none => acc

/-- The point re-join loop of pipeline.py lines 239-248: walk the original
feature list again with the same presence filter, keeping a running index
`idx` into the `sig_both` array, and collect the coordinates of the
features whose aligned flag is set (guarded by `idx < sig_both.size`).
The remaining suffix of the flag list plays the role of `idx`. -/
def fusionJoin : List SampleRec → List Bool → List (ℚ × ℚ)
  | [], _ => []
  | f :: rest, sigs =>
    match f.count_true with
    | none => fusionJoin rest sigs
    | some _ =>
      match sigs with
      | [] => fusionJoin rest []
      | s :: srest =>
        if s then (f.lon, f.lat) :: fusionJoin rest srest
        else fusionJoin rest srest

/-- `stats.get('gi', {}).get('hotspot_95_mask', [])` (pipeline.py line
233): the insufficient-samples dictionary has no `'gi'` entry, so the
default empty array is used. -/
def statsGiHot : StatsResult → List ℤ
  | .ok _ g _ => g.hotspot_95_mask
  | .error _ => []

/-- `stats.get('moran', {}).get('significant_95_mask', [])` (pipeline.py
line 234). -/
def statsMoranSig : StatsResult → List ℤ
  | .ok _ _ m => m.significant_95_mask
  | .error _ => []

/-- `stats.get('moran', {}).get('q', [])` (pipeline.py line 235). -/
def statsMoranQ : StatsResult → List ℤ
  | .ok _ _ m => m.q
  | .error _ => []

/-- Elementwise `(a == 1) & (b == 1) & (c == 1)` over three equal-length
integer arrays (pipeline.py line 236). -/
def zipWith3Sig : List ℤ → List ℤ → List ℤ → List Bool
  | a :: as, b :: bs, c :: cs =>
    (a == 1 && (b == 1 && c == 1)) :: zipWith3Sig as bs cs
  | _, _, _ => []

/-- The consensus-fusion block of pipeline.py lines 231-261, which the
source wraps in `try/except Exception: pass`.  The anticipated failure
modes are modelled as `none` (fusion skipped, validated mask omitted):
mismatched mask array lengths (a numpy broadcast error; numpy's length-1
broadcasting special case is not modelled, and never arises here), and zero
doubly-significant points (rasterizing an empty `FeatureCollection` fails
at Earth Engine evaluation time, per the spec §4.5 failure policy).
Otherwise the validated mask is the preliminary mask AND-ed with the
positive part of the 500 m influence field, self-masked. -/
def consensus_fusion (stats : StatsResult) (fc : List SampleRec)
    (prelim_hot : Raster Bool) (influence : List (ℚ × ℚ) → Raster ℚ) :
    Option (Raster Bool) :=
  let gi_hot := statsGiHot stats
  let mi_sig := statsMoranSig stats
  let mi_q := statsMoranQ stats
  if gi_hot.length = mi_sig.length ∧ mi_sig.length = mi_q.length then
    let sig_both := zipWith3Sig gi_hot mi_sig mi_q
    let pts := fusionJoin fc sig_both
    if pts.isEmpty then none
    else some (mk_validated prelim_hot (influence pts))
  else none

/-- The output files written by the run in write order (pipeline.py lines
189-266), excluding the final `index.json`; this is also the content of the
`assets` dictionary of the returned index.  `validated_hotspots.png` is
present only when consensus fusion completed. -/
def assetList (hasValidated : Bool) : List String :=
  ["thresholds.json", "lst.png", "ndvi.png", "albedo.png", "impervious.png",
   "building_density.png", "population.png", "ntl.png", "water_distance.png",
   "elevation.png", "lulc.png", "threshold_exceedance.png",
   "preliminary_hotspots.png"]
  ++ (if hasValidated then ["validated_hotspots.png"] else [])
  ++ ["spatial_stats.json"]

/-- What `UHIPipeline.run` computes and what it writes: the analysis
entities of the run, the asset names of the returned index, and the full
ordered list of files the run persisted to the output directory
(`writes`, ending with `index.json` from line 278). -/
structure RunOutput where
  thresholds : Thresholds
  count_true : Raster Nat
  prelim_hot : Raster Bool
  stats : StatsResult
  validated_hot : Option (Raster Bool)
  assets : List String
  writes : List String

/-- The analysis body of `UHIPipeline.run` (pipeline.py lines 105-279,
after the boundary geocode and the cached-index short-circuit of lines
110-112, both external I/O): thresholds, urban and elevation masks,
condition layers, vote count, preliminary mask, sampling, spatial
statistics, consensus fusion, and the persisted outputs.  An undefined
percentile threshold or mean elevation (`null` from `reduceRegion`) makes
the Earth Engine evaluation fail, surfacing as an error; consensus-fusion
failure is absorbed (validated mask omitted) and everything else is still
produced. -/
def pipelineRun (lib : StatsLib) (pr : Provider) : Except String RunOutput :=
  match computeThresholds pr, pr.meanElev with
  | some t, some elev_mean =>
    let urban_mask := Raster.eqQ pr.layers.lulc 13
    let elev_ok := Raster.lteQ pr.layers.elevation (elev_mean + 200)
    let conds := mk_conds pr.layers t
    let count_true := boolean_count conds
    let prelim_hot := mk_prelim_hot count_true urban_mask elev_ok
    let sampled := collectSamples pr.sample
    let stats := run_spatial_stats lib (sampled.1.map some) sampled.2.1 sampled.2.2
    let validated := consensus_fusion stats pr.sample prelim_hot pr.influence
    Except.ok
      { thresholds := t
        count_true := count_true
        prelim_hot := prelim_hot
        stats := stats
        validated_hot := validated
        assets := assetList validated.isSome
        writes := assetList validated.isSome ++ ["index.json"] }
  | _, _ => Except.error "undefined threshold: percentile or mean reduction returned null"

/-! Concrete fixtures used by the witness theorems. -/

/-- Constant layer stack for witnesses: an urban (class 13), low-elevation
pixel field whose values exceed all high-indicative thresholds of `t0`,
fall below the low-indicative ones, and lie more than 500 m from water. -/
def layers0 : Layers :=
  { lst := fun _ => some 30
    ndvi := fun _ => some 0
    lulc := fun _ => some 13
    ntl := fun _ => some 40
    albedo := fun _ => some 0
    impervious := fun _ => some 80
    building_density := fun _ => some 2000
    population := fun _ => some 3000
    water_distance := fun _ => some 600
    elevation := fun _ => some 40 }

/-- Witness thresholds: every percentile reduction returned 1. -/
def t0 : Thresholds := ⟨1, 1, 1, 1, 1, 1, 1⟩

/-- Witness provider: all reductions defined, an empty sample. -/
def pr0 : Provider :=
  { layers := layers0
    percentile := fun _ _ _ => some 1
    meanElev := some 0
    sample := []
    influence := fun _ => fun _ => some 1 }

/-- Witness provider whose percentile reductions are undefined (AOI with
too few valid pixels). -/
def prNone : Provider :=
  { layers := layers0
    percentile := fun _ _ _ => none
    meanElev := some 0
    sample := []
    influence := fun _ => fun _ => some 1 }

/-- Witness statistics library: constant per-point outputs of the right
shape (z-score 2, p-value 0, Moran statistic 1, quadrant 1). -/
def lib0 : StatsLib :=
  { sqrtQ := fun v => v
    g_local := fun x _ => ⟨x.map (fun _ => 2), x.map (fun _ => 0)⟩
    moran_local := fun x _ =>
      ⟨x.map (fun _ => 1), x.map (fun _ => 0), x.map (fun _ => 1)⟩ }

/-- Fifty identical valid sampled vote counts. -/
def vals50 : List (Option ℚ) := List.replicate 50 (some 0)

/-- Fifty zero coordinates. -/
def zero50 : List ℚ := List.replicate 50 0

/-- The Gi* result dictionary `lib0` produces on 50 samples. -/
def gi50 : GiRes :=
  { z_scores := List.replicate 50 2
    p_values := List.replicate 50 0
    hotspot_95_mask := List.replicate 50 1 }

/-- The Moran result dictionary `lib0` produces on 50 samples. -/
def mi50 : MoranRes :=
  { Is := List.replicate 50 1
    p_values := List.replicate 50 0
    significant_95_mask := List.replicate 50 1
    q := List.replicate 50 1 }

/-- Witness vote-count raster: seven of eight votes everywhere. -/
def count7 : Raster Nat := fun _ => some 7

/-- Witness land-cover raster: urban built-up (class 13) everywhere. -/
def lulc13 : Raster ℚ := fun _ => some 13

/-- Witness elevation raster: 100 m everywhere. -/
def elev100 : Raster ℚ := fun _ => some 100

/-- Witness preliminary mask: hotspot everywhere. -/
def prelimTrue : Raster Bool := fun _ => some true

/-- Witness influence field: positive everywhere. -/
def densOne : Raster ℚ := fun _ => some 1

/-! Helper lemmas. -/

/-- Counting the true values among the defined bands equals counting the
condition layers that are present-and-true at the pixel. -/
theorem count_filterMap_id (l : List (Option Bool)) :
    (l.filterMap id).count true = l.countP (fun o => o == some true) := by
  induction l with
  | nil => rfl
  | cons o rest ih =>
    cases o with
    | none => simp [List.countP_cons, ih]
    | some b => cases b <;> simp [List.countP_cons, List.count_cons, ih]

theorem count_filterMap_eq_countP (conds : List (Raster Bool)) (p : Nat) :
    ((conds.map (fun c => c p)).filterMap id).count true =
      conds.countP (fun c => c p == some true) := by
  rw [count_filterMap_id, List.countP_map]
  rfl

/-- The rebuild loop appends nothing once the significance array is
exhausted (the `idx < sig_both.size` guard). -/
theorem fusionJoin_nil_sigs (fc : List SampleRec) : fusionJoin fc [] = [] := by
  induction fc with
  | nil => rfl
  | cons f rest ih => cases h : f.count_true <;> simp [fusionJoin, h, ih]

/-- The rebuild loop of pipeline.py lines 239-248 joins the `sig_both`
flags to the retained (vote-count-present) features by position. -/
theorem fusionJoin_eq_zip (fc : List SampleRec) (sigs : List Bool) :
    fusionJoin fc sigs =
      (((fc.filter (fun f => f.count_true.isSome)).zip sigs).filter
          (fun q => q.2)).map (fun q => (q.1.lon, q.1.lat)) := by
  induction fc generalizing sigs with
  | nil => simp [fusionJoin]
  | cons f rest ih =>
    cases hc : f.count_true with
    | none => simp [fusionJoin, hc, List.filter_cons, ih]
    | some v =>
      cases sigs with
      | nil => simp [fusionJoin, hc, List.filter_cons, fusionJoin_nil_sigs]
      | cons s srest =>
        cases s <;> simp [fusionJoin, hc, List.filter_cons, ih]

/-- numpy boolean-mask filtering keeps exactly the non-NaN entries when
the three parallel arrays have equal length. -/
theorem applyNanMask_length (vs : List (Option ℚ)) (los las : List ℚ)
    (h1 : vs.length = los.length) (h2 : vs.length = las.length) :
    (applyNanMask vs los las).length = (vs.filterMap id).length := by
  induction vs generalizing los las with
  | nil => cases los <;> cases las <;> simp [applyNanMask]
  | cons v vs ih =>
    cases los with
    | nil => exact absurd h1 (by simp)
    | cons lo los =>
      cases las with
      | nil => exact absurd h2 (by simp)
      | cons la las =>
        cases v with
        | none =>
          simpa [applyNanMask] using ih los las (by simpa using h1) (by simpa using h2)
        | some w =>
          simpa [applyNanMask] using ih los las (by simpa using h1) (by simpa using h2)

/-- An `Option.bind` chain collapses to `none` when every continuation
yields `none`. -/
theorem bind_none_mid {α β : Type} (o : Option α) (f : α → Option β)
    (h : ∀ a, f a = none) : (o >>= f) = none := by
  cases o <;> simp [h]

/-- An indicator written with `if` equals 1 exactly when its condition
holds. -/
theorem ite_one_zero_eq_one {c : Prop} [Decidable c] :
    ((if c then (1 : ℤ) else 0) = 1) ↔ c := by
  by_cases hc : c <;> simp [hc]

/-- numpy masking of three constant parallel arrays keeps everything. -/
theorem applyNanMask_replicate (n : Nat) (v a b : ℚ) :
    applyNanMask (List.replicate n (some v)) (List.replicate n a) (List.replicate n b)
      = List.replicate n (v, a, b) := by
  induction n with
  | zero => rfl
  | succ k ih => simp [List.replicate_succ, applyNanMask, ih]

/-- Concrete evaluation of the statistics adapter on the 50-sample witness
input: all computations collapse to constants. -/
theorem run_spatial_stats_lib0_eval :
    run_spatial_stats lib0 vals50 zero50 zero50 = StatsResult.ok 50 gi50 mi50 := by
  have h1 : mkRat 49 25 < (2 : ℚ) := by decide
  have h2 : (0 : ℚ) < mkRat 1 20 := by decide
  simp only [run_spatial_stats, vals50, zero50, applyNanMask_replicate,
    List.map_replicate, List.length_replicate]
  rw [if_neg (by decide)]
  simp only [List.sum_replicate, smul_zero, zero_div, sub_zero, ne_eq,
    OfNat.ofNat_ne_zero, not_false_eq_true, zero_pow, zero_add, lib0,
    List.map_replicate, List.zipWith_replicate']
  rw [if_pos ⟨h1, h2⟩, if_pos h2]
  rfl

/-! Claim theorems. -/

/-- C1: the validated hotspot mask is a subset of the preliminary hotspot
mask: a pixel carries a value in
`prelim_hot.And(sig_density.gt(0)).selfMask()` only if it carries a value
in `prelim_hot`, whatever the influence field is. -/
theorem validated_subset_preliminary (prelim : Raster Bool) (dens : Raster ℚ)
    (p : Nat) (h : (mk_validated prelim dens p).isSome) : (prelim p).isSome := by
  cases hp : prelim p with
  | some b => rfl
  | none =>
    exfalso
    cases hd : dens p with
    | some v =>
      simp [mk_validated, Raster.selfMask, Raster.and, Raster.gtQ, hp, hd] at h
    | none =>
      simp [mk_validated, Raster.selfMask, Raster.and, Raster.gtQ, hp, hd] at h

/-- C1 witness: a pixel present in a concrete validated mask is present in
the preliminary mask. -/
theorem validated_subset_preliminary_witness :
    (mk_validated prelimTrue densOne 0).isSome ∧ (prelimTrue 0).isSome :=
  ⟨by decide, validated_subset_preliminary prelimTrue densOne 0 (by decide)⟩

/-- C2: at a pixel where the vote count, the land-cover class and the
elevation are all defined, the preliminary hotspot mask
`count_true.gte(6).And(lulc.eq(13)).And(elevation.lte(mean+200)).selfMask()`
carries a value iff the vote count is at least 6, the land-cover class is
the urban built-up class 13, and the elevation is at most the AOI mean
elevation plus 200 m; and a pixel that carries a value carries `true`
(failing pixels are masked out, never a stored `false`). -/
theorem prelim_mask_iff (count : Raster Nat) (lulc elevation : Raster ℚ)
    (elev_mean : ℚ) (p : Nat) (cv : Nat) (lv ev : ℚ)
    (hc : count p = some cv) (hl : lulc p = some lv) (he : elevation p = some ev) :
    ((mk_prelim_hot count (Raster.eqQ lulc 13)
        (Raster.lteQ elevation (elev_mean + 200)) p).isSome
      ↔ (6 ≤ cv ∧ lv = 13 ∧ ev ≤ elev_mean + 200))
    ∧ ∀ b, mk_prelim_hot count (Raster.eqQ lulc 13)
        (Raster.lteQ elevation (elev_mean + 200)) p = some b → b = true := by
  have hexpr : mk_prelim_hot count (Raster.eqQ lulc 13)
      (Raster.lteQ elevation (elev_mean + 200)) p =
      (if 6 ≤ cv ∧ lv = 13 ∧ ev ≤ elev_mean + 200 then some true else none) := by
    unfold mk_prelim_hot Raster.selfMask Raster.and Raster.gteN Raster.eqQ Raster.lteQ
    rw [hc, hl, he]
    by_cases h1 : 6 ≤ cv <;> by_cases h2 : lv = 13 <;>
      by_cases h3 : ev ≤ elev_mean + 200 <;> simp [h1, h2, h3]
  by_cases hcond : 6 ≤ cv ∧ lv = 13 ∧ ev ≤ elev_mean + 200 <;>
    simp [hexpr, hcond]

/-- C2 witness: a concrete pixel with 7 votes, urban class 13 and
elevation 100 ≤ 50 + 200 is present in the preliminary mask. -/
theorem prelim_mask_iff_witness :
    (count7 0 = some 7 ∧ lulc13 0 = some 13 ∧ elev100 0 = some 100) ∧
      ((mk_prelim_hot count7 (Raster.eqQ lulc13 13)
          (Raster.lteQ elev100 ((50 : ℚ) + 200)) 0).isSome
        ↔ (6 ≤ 7 ∧ (13 : ℚ) = 13 ∧ (100 : ℚ) ≤ (50 : ℚ) + 200)) :=
  ⟨⟨rfl, rfl, rfl⟩, (prelim_mask_iff count7 lulc13 elev100 50 0 7 13 100 rfl rfl rfl).1⟩

/-- C3: wherever the vote-count layer carries a value, that value equals
the number of the 8 condition layers that are present-and-true at the
pixel, and lies in the range [0, 8]. -/
theorem vote_count_eq_true_conditions (L : Layers) (t : Thresholds) (p : Nat)
    (n : Nat) (h : boolean_count (mk_conds L t) p = some n) :
    n = (mk_conds L t).countP (fun c => c p == some true) ∧ n ≤ 8 := by
  simp only [boolean_count] at h
  split at h
  · exact absurd h (by simp)
  · cases h
    constructor
    · exact count_filterMap_eq_countP (mk_conds L t) p
    · calc (((mk_conds L t).map (fun c => c p)).filterMap id).count true
          ≤ (((mk_conds L t).map (fun c => c p)).filterMap id).length :=
            List.count_le_length _ _
        _ ≤ ((mk_conds L t).map (fun c => c p)).length := List.length_filterMap_le _ _
        _ = 8 := by simp [mk_conds]

/-- C3 witness: on a concrete layer stack all eight conditions hold at
pixel 0, and the vote count is 8 ≤ 8. -/
theorem vote_count_eq_true_conditions_witness :
    boolean_count (mk_conds layers0 t0) 0 = some 8 ∧
      (8 = (mk_conds layers0 t0).countP (fun c => c 0 == some true) ∧ 8 ≤ 8) :=
  ⟨by decide, vote_count_eq_true_conditions layers0 t0 0 8 (by decide)⟩

/-- C4: on parallel input arrays, when fewer than 50 values are valid
(non-NaN) the statistics engine returns the tagged insufficient-samples
result (it is a total function, so it never raises); with at least 50
valid values it returns the full result whose every Gi* and Moran array
has length equal to the number of valid values, given that the library
statistics are per-point (length-preserving). -/
theorem stats_insufficient_guard (lib : StatsLib) (values : List (Option ℚ))
    (lons lats : List ℚ)
    (hl1 : values.length = lons.length) (hl2 : values.length = lats.length)
    (hg : ∀ x c, (lib.g_local x c).Zs.length = x.length ∧
        (lib.g_local x c).p_norm.length = x.length)
    (hm : ∀ x c, (lib.moran_local x c).Is.length = x.length ∧
        (lib.moran_local x c).p_sim.length = x.length ∧
        (lib.moran_local x c).q.length = x.length) :
    ((values.filterMap id).length < 50 →
      run_spatial_stats lib values lons lats =
        StatsResult.error "Insufficient samples for spatial statistics") ∧
    (50 ≤ (values.filterMap id).length →
      ∃ g m, run_spatial_stats lib values lons lats =
          StatsResult.ok (values.filterMap id).length g m ∧
        g.z_scores.length = (values.filterMap id).length ∧
        g.p_values.length = (values.filterMap id).length ∧
        g.hotspot_95_mask.length = (values.filterMap id).length ∧
        m.Is.length = (values.filterMap id).length ∧
        m.p_values.length = (values.filterMap id).length ∧
        m.significant_95_mask.length = (values.filterMap id).length ∧
        m.q.length = (values.filterMap id).length) := by
  have hk : (applyNanMask values lons lats).length = (values.filterMap id).length :=
    applyNanMask_length values lons lats hl1 hl2
  have hvals : ((applyNanMask values lons lats).map (fun t => t.1)).length
      = (values.filterMap id).length := by rw [List.length_map, hk]
  constructor
  · intro hlt
    simp only [run_spatial_stats]
    rw [if_pos (by rw [hvals]; exact hlt)]
  · intro hge
    simp only [run_spatial_stats]
    rw [if_neg (by rw [hvals]; exact not_lt.mpr hge)]
    rw [hvals]
    refine ⟨_, _, rfl, ?_, ?_, ?_, ?_, ?_, ?_, ?_⟩
    all_goals simp [List.length_zipWith, List.length_map, hk, hg, hm]

/-- C4 witness: fifty valid samples produce the full result with arrays of
length 50. -/
theorem stats_insufficient_guard_witness :
    (vals50.length = zero50.length ∧ 50 ≤ (vals50.filterMap id).length) ∧
      (∃ g m, run_spatial_stats lib0 vals50 zero50 zero50 =
          StatsResult.ok (vals50.filterMap id).length g m ∧
        g.z_scores.length = (vals50.filterMap id).length ∧
        g.p_values.length = (vals50.filterMap id).length ∧
        g.hotspot_95_mask.length = (vals50.filterMap id).length ∧
        m.Is.length = (vals50.filterMap id).length ∧
        m.p_values.length = (vals50.filterMap id).length ∧
        m.significant_95_mask.length = (vals50.filterMap id).length ∧
        m.q.length = (vals50.filterMap id).length) :=
  ⟨⟨by decide, by decide⟩,
    (stats_insufficient_guard lib0 vals50 zero50 zero50 (by decide) (by decide)
        (by intro x c; constructor <;> simp [lib0])
        (by intro x c; refine ⟨?_, ?_, ?_⟩ <;> simp [lib0])).2 (by decide)⟩

/-- C5: in every successful statistics result, the Gi* 95% hotspot flag at
index i is 1 iff the z-score exceeds 1.96 and the normal p-value is below
0.05 at the same index, and the Moran 95% significance flag at index i is
1 iff the simulated p-value at i is below 0.05 (the quadrant array is the
library's `q`, whose value 1 denotes the high-high cluster). -/
theorem significance_flags_iff (lib : StatsLib) (values : List (Option ℚ))
    (lons lats : List ℚ) (n : Nat) (g : GiRes) (m : MoranRes)
    (h : run_spatial_stats lib values lons lats = StatsResult.ok n g m) :
    (∀ i (hmk : i < g.hotspot_95_mask.length) (hz : i < g.z_scores.length)
        (hp : i < g.p_values.length),
        (g.hotspot_95_mask.get ⟨i, hmk⟩ = 1 ↔
          (mkRat 49 25 < g.z_scores.get ⟨i, hz⟩ ∧
            g.p_values.get ⟨i, hp⟩ < mkRat 1 20))) ∧
    (∀ i (hs : i < m.significant_95_mask.length) (hp2 : i < m.p_values.length),
        (m.significant_95_mask.get ⟨i, hs⟩ = 1 ↔
          m.p_values.get ⟨i, hp2⟩ < mkRat 1 20)) := by
  simp only [run_spatial_stats] at h
  split at h
  · exact absurd h (by simp)
  · injection h with h1 h2 h3
    subst h1
    subst h2
    subst h3
    constructor
    · intro i hmk hz hp
      simp only [List.get_eq_getElem, List.getElem_zipWith, ite_one_zero_eq_one]
    · intro i hs hp2
      simp only [List.get_eq_getElem, List.getElem_map, ite_one_zero_eq_one]

/-- C5 witness: on the concrete 50-sample run, the flag at index 0 is 1
iff its z-score 2 exceeds 1.96 and its p-value 0 is below 0.05. -/
theorem significance_flags_iff_witness :
    run_spatial_stats lib0 vals50 zero50 zero50 = StatsResult.ok 50 gi50 mi50 ∧
      (gi50.hotspot_95_mask.get ⟨0, by decide⟩ = 1 ↔
        (mkRat 49 25 < gi50.z_scores.get ⟨0, by decide⟩ ∧
          gi50.p_values.get ⟨0, by decide⟩ < mkRat 1 20)) :=
  ⟨run_spatial_stats_lib0_eval,
    (significance_flags_iff lib0 vals50 zero50 zero50 50 gi50 mi50
        run_spatial_stats_lib0_eval).1 0 (by decide) (by decide) (by decide)⟩

/-- C6: the seven thresholds come from the provider's percentile
reduction, the 80th percentile for the high-indicative variables
(temperature, imperviousness, building density, population, night light)
and the 20th for the low-indicative ones (vegetation index, albedo); each
condition layer compares its variable in the hot-indicative direction
(greater-than for high-indicative, less-than for low-indicative), and the
8th condition is the fixed, non-percentile `water_distance > 500` m. -/
theorem percentile_choices_and_directions (pr : Provider) (t : Thresholds)
    (ht : computeThresholds pr = some t) :
    (pr.percentile pr.layers.lst 80 1000 = some t.lst80 ∧
     pr.percentile pr.layers.ndvi 20 300 = some t.ndvi20 ∧
     pr.percentile pr.layers.ntl 80 500 = some t.ntl80 ∧
     pr.percentile pr.layers.albedo 20 500 = some t.albedo20 ∧
     pr.percentile pr.layers.impervious 80 100 = some t.imperv80 ∧
     pr.percentile pr.layers.building_density 80 300 = some t.bld80 ∧
     pr.percentile pr.layers.population 80 300 = some t.pop80) ∧
    (∀ p, (mk_conds pr.layers t).map (fun c => c p) =
      [(pr.layers.lst p).map (fun v => decide (t.lst80 < v)),
       (pr.layers.ndvi p).map (fun v => decide (v < t.ndvi20)),
       (pr.layers.albedo p).map (fun v => decide (v < t.albedo20)),
       (pr.layers.impervious p).map (fun v => decide (t.imperv80 < v)),
       (pr.layers.building_density p).map (fun v => decide (t.bld80 < v)),
       (pr.layers.population p).map (fun v => decide (t.pop80 < v)),
       (pr.layers.ntl p).map (fun v => decide (t.ntl80 < v)),
       (pr.layers.water_distance p).map (fun v => decide ((500 : ℚ) < v))]) := by
  constructor
  · unfold computeThresholds at ht
    simp only [Option.bind_eq_bind, Option.bind_eq_some, Option.pure_def,
      Option.some.injEq] at ht
    obtain ⟨v1, h1, v2, h2, v3, h3, v4, h4, v5, h5, v6, h6, v7, h7, hEq⟩ := ht
    subst hEq
    exact ⟨h1, h2, h3, h4, h5, h6, h7⟩
  · intro p
    rfl

/-- C6 witness: a concrete provider whose percentile reduction always
returns 1 yields the thresholds record of ones, with the temperature
threshold the 80th percentile at scale 1000. -/
theorem percentile_choices_and_directions_witness :
    computeThresholds pr0 = some t0 ∧
      pr0.percentile pr0.layers.lst 80 1000 = some t0.lst80 :=
  ⟨by decide, (percentile_choices_and_directions pr0 t0 (by decide)).1.1⟩

/-- C7: when the thresholds and the mean elevation are defined, the run
always succeeds whatever the statistics or fusion outcome (fusion failure
is never fatal); when the statistics engine returned the
insufficient-samples result the validated mask is `none`; whenever the
validated mask is omitted, the index still carries the thresholds, the
preliminary-hotspot and statistics assets, without a validated-hotspots
asset; and zero doubly-significant points always skip fusion. -/
theorem fusion_skip_nonfatal (lib : StatsLib) (pr : Provider) (t : Thresholds)
    (em : ℚ) (ht : computeThresholds pr = some t) (he : pr.meanElev = some em) :
    ∃ r, pipelineRun lib pr = Except.ok r ∧
      (∀ msg, r.stats = StatsResult.error msg → r.validated_hot = none) ∧
      (r.validated_hot = none →
        ("validated_hotspots.png" ∉ r.assets ∧ "thresholds.json" ∈ r.assets ∧
          "preliminary_hotspots.png" ∈ r.assets ∧ "spatial_stats.json" ∈ r.assets ∧
          "index.json" ∈ r.writes)) ∧
      (∀ st fc2 pre2 inf2,
        fusionJoin fc2
          (zipWith3Sig (statsGiHot st) (statsMoranSig st) (statsMoranQ st)) = [] →
        consensus_fusion st fc2 pre2 inf2 = none) := by
  unfold pipelineRun
  rw [ht, he]
  refine ⟨_, rfl, ?_, ?_, ?_⟩
  · intro msg hmsg
    dsimp only at hmsg ⊢
    rw [hmsg]
    simp [consensus_fusion, statsGiHot, statsMoranSig, statsMoranQ, zipWith3Sig,
      fusionJoin_nil_sigs]
  · intro hv
    dsimp only at hv ⊢
    rw [hv]
    decide
  · intro st fc2 pre2 inf2 hj
    simp only [consensus_fusion]
    split
    · simp [hj]
    · rfl

/-- C7 witness: at a concrete provider with an empty sample, the run
succeeds, the statistics are insufficient, and the validated mask is
omitted while the other assets are present. -/
theorem fusion_skip_nonfatal_witness :
    computeThresholds pr0 = some t0 ∧
      (∃ r, pipelineRun lib0 pr0 = Except.ok r ∧
        (∀ msg, r.stats = StatsResult.error msg → r.validated_hot = none) ∧
        (r.validated_hot = none →
          ("validated_hotspots.png" ∉ r.assets ∧ "thresholds.json" ∈ r.assets ∧
            "preliminary_hotspots.png" ∈ r.assets ∧ "spatial_stats.json" ∈ r.assets ∧
            "index.json" ∈ r.writes)) ∧
        (∀ st fc2 pre2 inf2,
          fusionJoin fc2
            (zipWith3Sig (statsGiHot st) (statsMoranSig st) (statsMoranQ st)) = [] →
          consensus_fusion st fc2 pre2 inf2 = none)) :=
  ⟨by decide, fusion_skip_nonfatal lib0 pr0 t0 0 (by decide) rfl⟩

/-- C8: the sampling collection loop discards records with a missing vote
count (it is total, never an error) and equals an order-preserving filter:
it returns exactly the vote counts, longitudes and latitudes of the
retained records in input order; the retained records form a sublist of
the input; the fusion re-join pairs the i-th significance flag with the
i-th retained record; and the statistics engine's NaN filter keeps every
value the pipeline hands it, so the output arrays stay index-aligned with
the retained sample points. -/
theorem sampling_filter_order_alignment :
    (∀ fc : List SampleRec,
      collectSamples fc =
        ((fc.filter (fun f => f.count_true.isSome)).filterMap (fun f => f.count_true),
         (fc.filter (fun f => f.count_true.isSome)).map (fun f => f.lon),
         (fc.filter (fun f => f.count_true.isSome)).map (fun f => f.lat))) ∧
    (∀ fc : List SampleRec, (fc.filter (fun f => f.count_true.isSome)).Sublist fc) ∧
    (∀ (fc : List SampleRec) (sigs : List Bool),
      fusionJoin fc sigs =
        (((fc.filter (fun f => f.count_true.isSome)).zip sigs).filter
            (fun q => q.2)).map (fun q => (q.1.lon, q.1.lat))) ∧
    (∀ vs : List ℚ, (vs.map some).filterMap id = vs) := by
  refine ⟨?_, ?_, fusionJoin_eq_zip, ?_⟩
  · intro fc
    induction fc with
    | nil => rfl
    | cons f rest ih =>
      cases hc : f.count_true <;>
        simp [collectSamples, List.filter_cons, List.filterMap_cons, hc, ih]
  · intro fc
    exact List.filter_sublist fc
  · intro vs
    simp [List.filterMap_map, Function.comp, List.filterMap_some]

/-- C9: if any of the seven percentile reductions is undefined (AOI with
too few valid pixels), the run fails with an error rather than
proceeding; and on success every threshold in the output is exactly the
provider's percentile value — no zero is ever substituted. -/
theorem undefined_threshold_surfaces (lib : StatsLib) (pr : Provider) :
    ((pr.percentile pr.layers.lst 80 1000 = none ∨
      pr.percentile pr.layers.ndvi 20 300 = none ∨
      pr.percentile pr.layers.ntl 80 500 = none ∨
      pr.percentile pr.layers.albedo 20 500 = none ∨
      pr.percentile pr.layers.impervious 80 100 = none ∨
      pr.percentile pr.layers.building_density 80 300 = none ∨
      pr.percentile pr.layers.population 80 300 = none) →
      ∃ msg, pipelineRun lib pr = Except.error msg) ∧
    (∀ r, pipelineRun lib pr = Except.ok r →
      computeThresholds pr = some r.thresholds) := by
  constructor
  · intro hd
    have hnone : computeThresholds pr = none := by
      unfold computeThresholds
      rcases hd with h | h | h | h | h | h | h
      · rw [h]; rfl
      · exact bind_none_mid _ _ (fun a => by rw [h]; rfl)
      · exact bind_none_mid _ _ (fun a => bind_none_mid _ _ (fun b => by rw [h]; rfl))
      · exact bind_none_mid _ _ (fun a => bind_none_mid _ _ (fun b =>
          bind_none_mid _ _ (fun c => by rw [h]; rfl)))
      · exact bind_none_mid _ _ (fun a => bind_none_mid _ _ (fun b =>
          bind_none_mid _ _ (fun c => bind_none_mid _ _ (fun d => by rw [h]; rfl))))
      · exact bind_none_mid _ _ (fun a => bind_none_mid _ _ (fun b =>
          bind_none_mid _ _ (fun c => bind_none_mid _ _ (fun d =>
            bind_none_mid _ _ (fun e => by rw [h]; rfl)))))
      · exact bind_none_mid _ _ (fun a => bind_none_mid _ _ (fun b =>
          bind_none_mid _ _ (fun c => bind_none_mid _ _ (fun d =>
            bind_none_mid _ _ (fun e => bind_none_mid _ _ (fun g => by rw [h]; rfl))))))
    unfold pipelineRun
    rw [hnone]
    exact ⟨_, rfl⟩
  · intro r hr
    unfold pipelineRun at hr
    cases hth : computeThresholds pr with
    | none => rw [hth] at hr; exact absurd hr (by simp)
    | some t =>
      rw [hth] at hr
      cases hme : pr.meanElev with
      | none => rw [hme] at hr; exact absurd hr (by simp)
      | some em =>
        rw [hme] at hr
        injection hr with h2
        rw [← h2]

/-- C9 witness: a provider whose percentile reduction is undefined makes
the run fail. -/
theorem undefined_threshold_surfaces_witness :
    ∃ msg, pipelineRun lib0 prNone = Except.error msg :=
  (undefined_threshold_surfaces lib0 prNone).1 (Or.inl rfl)

/-- C10 counterexample: the claim "the core operation has no side effects
beyond its returns — no output persistence or file-system writes" is
false on the code: at a concrete input the run succeeds and its recorded
list of persisted files is non-empty. -/
theorem run_not_pure_cex :
    ∃ r, pipelineRun lib0 pr0 = Except.ok r ∧ r.writes ≠ [] := by
  have hw : (pipelineRun lib0 pr0).map RunOutput.writes =
      Except.ok (assetList false ++ ["index.json"]) := rfl
  cases hrun : pipelineRun lib0 pr0 with
  | ok r =>
    rw [hrun] at hw
    simp only [Except.map] at hw
    injection hw with h2
    refine ⟨r, rfl, ?_⟩
    rw [h2]
    decide
  | error e =>
    rw [hrun] at hw
    exact absurd hw (by simp [Except.map])

/-- C10 (amended): the core analysis operation computes and returns the
thresholds, masks and statistics, but it persists its outputs itself as a
side effect: every successful run writes the thresholds JSON, the
statistics JSON and the index JSON (among the rendered PNG products) to
the output directory, so persistence is internal rather than left to the
caller. -/
theorem run_persists_outputs (lib : StatsLib) (pr : Provider) (r : RunOutput)
    (h : pipelineRun lib pr = Except.ok r) :
    "thresholds.json" ∈ r.writes ∧ "spatial_stats.json" ∈ r.writes ∧
      "index.json" ∈ r.writes ∧ r.writes ≠ [] := by
  have hmem : ∀ b : Bool, "thresholds.json" ∈ assetList b ++ ["index.json"] ∧
      "spatial_stats.json" ∈ assetList b ++ ["index.json"] ∧
      "index.json" ∈ assetList b ++ ["index.json"] ∧
      assetList b ++ ["index.json"] ≠ ([] : List String) := by
    intro b
    cases b <;> exact ⟨by decide, by decide, by decide, by decide⟩
  unfold pipelineRun at h
  cases hth : computeThresholds pr with
  | none => rw [hth] at h; exact absurd h (by simp)
  | some t =>
    rw [hth] at h
    cases hme : pr.meanElev with
    | none => rw [hme] at h; exact absurd h (by simp)
    | some em =>
      rw [hme] at h
      injection h with h2
      rw [← h2]
      exact hmem _

/-- C10 witness: a concrete successful run whose persisted files include
the index JSON. -/
theorem run_persists_outputs_witness :
    ∃ r, pipelineRun lib0 pr0 = Except.ok r ∧ "index.json" ∈ r.writes := by
  cases hrun : pipelineRun lib0 pr0 with
  | ok r => exact ⟨r, rfl, (run_persists_outputs lib0 pr0 r hrun).2.2.1⟩
  | error e =>
    have hw : (pipelineRun lib0 pr0).map RunOutput.writes =
        Except.ok (assetList false ++ ["index.json"]) := rfl
    rw [hrun] at hw
    exact absurd hw (by simp [Except.map])

end UHI
